import Mathlib

/-!
Verification of the browser-fingerprinting library (`src/lib.rs`).

The Rust code runs inside a web rendering host; every host capability
(window, navigator, screen, document, canvas, 2D context, WebGL contexts,
the `Intl` global) is modelled as explicit Lean data passed into the
embedded functions.  Fallible host calls (`Result<T, JsValue>` in
`web_sys`/`js_sys`) are modelled as `Except JsErr T`; optional host values
as `Option`.  Rust `f64` values are treated as opaque host scalars observed
only through the operations the code applies to them (`to_string`,
`as u32`, `as i32`): the structure `F64` records exactly those
observations.  SHA-256 and hex encoding are embedded executably.
-/

namespace BFP

/-- Errors carried by `JsValue` on the Rust side are only ever created from
string literals and propagated; a string suffices. -/
abbrev JsErr := String

/-- An `f64` host scalar, observed only through the conversions the source
applies: `to_string` (Rust `Display`), `as u32`, `as i32`. -/
structure F64 where
  toStr : String
  toU32 : Nat
  toI32 : Int
  deriving DecidableEq

/-- An integral host float such as `24.0` or an extension's enum code:
Rust renders it without a fractional part and both casts return it. -/
def F64.ofNat (n : Nat) : F64 := ⟨Nat.repr n, n % 4294967296, (n : Int)⟩

/-- JavaScript values as far as the source observes them: `as_string`,
`as_bool`, `as_f64`, `is_null`, `is_undefined`, `dyn_into::<Function>`,
`dyn_into::<Array>`. -/
inductive JsValue where
  | str (s : String)
  | num (x : F64)
  | boolean (b : Bool)
  | nullV
  | undefinedV
  | func
  | arr (xs : List JsValue)
  | obj

/-- `JsValue::as_string` -/
def JsValue.as_string : JsValue → Option String
  | .str s => some s
  | _ => none

/-- `JsValue::as_bool` -/
def JsValue.as_bool : JsValue → Option Bool
  | .boolean b => some b
  | _ => none

/-- `JsValue::as_f64` -/
def JsValue.as_f64 : JsValue → Option F64
  | .num x => some x
  | _ => none

/-- `JsValue::is_null` -/
def JsValue.isNull : JsValue → Bool
  | .nullV => true
  | _ => false

/-- `JsValue::is_undefined` -/
def JsValue.isUndefined : JsValue → Bool
  | .undefinedV => true
  | _ => false

/-- `dyn_into::<js_sys::Function>()`: succeeds exactly on function values. -/
def dynIntoFunction : JsValue → Except JsErr JsValue
  | .func => .ok .func
  | _ => .error "not a function"

/-- `Result::ok()` -/
def exceptToOption : Except JsErr α → Option α
  | .ok a => some a
  | .error _ => none

/-- `Result::ok().flatten()` on a `Result<Option<T>, JsValue>`. -/
def exceptJoin : Except JsErr (Option α) → Option α
  | .ok o => o
  | .error _ => none

/-- `Result::is_ok()` -/
def exceptIsOk : Except JsErr α → Bool
  | .ok _ => true
  | .error _ => false

/-! ## SHA-256 (the `sha2` crate's `Sha256`, restricted to what the source
uses: `update` on byte strings, `finalize`, then `hex::encode`). -/

/-- Two's-complement truncation to 32 bits. -/
def w32 (n : Nat) : Nat := n % 4294967296

/-- 32-bit right rotation. -/
def rotr32 (n x : Nat) : Nat := w32 ((x >>> n) ||| (x <<< (32 - n)))

def sha256ch (e f g : Nat) : Nat := (e &&& f) ^^^ ((e ^^^ 4294967295) &&& g)

def sha256maj (a b c : Nat) : Nat := (a &&& b) ^^^ (a &&& c) ^^^ (b &&& c)

def sha256Sig0 (a : Nat) : Nat := rotr32 2 a ^^^ rotr32 13 a ^^^ rotr32 22 a

def sha256Sig1 (e : Nat) : Nat := rotr32 6 e ^^^ rotr32 11 e ^^^ rotr32 25 e

def sha256sig0 (x : Nat) : Nat := rotr32 7 x ^^^ rotr32 18 x ^^^ (x >>> 3)

def sha256sig1 (x : Nat) : Nat := rotr32 17 x ^^^ rotr32 19 x ^^^ (x >>> 10)

/-- The 64 SHA-256 round constants (FIPS 180-4, in decimal). -/
def sha256K : List Nat :=
  [1116352408, 1899447441, 3049323471, 3921009573, 961987163, 1508970993,
   2453635748, 2870763221, 3624381080, 310598401, 607225278, 1426881987,
   1925078388, 2162078206, 2614888103, 3248222580, 3835390401, 4022224774,
   264347078, 604807628, 770255983, 1249150122, 1555081692, 1996064986,
   2554220882, 2821834349, 2952996808, 3210313671, 3336571891, 3584528711,
   113926993, 338241895, 666307205, 773529912, 1294757372, 1396182291,
   1695183700, 1986661051, 2177026350, 2456956037, 2730485921, 2820302411,
   3259730800, 3345764771, 3516065817, 3600352804, 4094571909, 275423344,
   430227734, 506948616, 659060556, 883997877, 958139571, 1322822218,
   1537002063, 1747873779, 1955562222, 2024104815, 2227730452, 2361852424,
   2428436474, 2756734187, 3204031479, 3329325298]

/-- The eight hash words of a SHA-256 state. -/
structure Hash8 where
  h0 : Nat
  h1 : Nat
  h2 : Nat
  h3 : Nat
  h4 : Nat
  h5 : Nat
  h6 : Nat
  h7 : Nat

/-- The SHA-256 initial state (FIPS 180-4, in decimal). -/
def sha256init : Hash8 :=
  ⟨1779033703, 3144134277, 1013904242, 2773480762,
   1359893119, 2600822924, 528734635, 1541459225⟩

/-- Big-endian 32-bit words from a byte list (four bytes per word). -/
def bytesToWords : List Nat → List Nat
  | a :: b :: c :: d :: rest =>
      (a * 16777216 + b * 65536 + c * 256 + d) :: bytesToWords rest
  | _ => []

/-- Extend 16 message words to 64.  `acc` holds the words produced so far,
most recent first; `n` counts the 48 remaining extension steps. -/
def sha256extend (acc : List Nat) : Nat → List Nat
  | 0 => acc
  | n + 1 =>
      let g (i : Nat) : Nat := (acc.get? i).getD 0
      sha256extend (w32 (sha256sig1 (g 1) + g 6 + sha256sig0 (g 14) + g 15) :: acc) n

/-- The 64-word message schedule of one block. -/
def sha256schedule (block : List Nat) : List Nat :=
  (sha256extend block.reverse 48).reverse

/-- One SHA-256 compression round.  The working state is
`(a, b, c, d, e, f, g, h)`. -/
def sha256round (s : Nat × Nat × Nat × Nat × Nat × Nat × Nat × Nat)
    (kw : Nat × Nat) : Nat × Nat × Nat × Nat × Nat × Nat × Nat × Nat :=
  match s with
  | (a, b, c, d, e, f, g, h) =>
    let t1 := w32 (h + sha256Sig1 e + sha256ch e f g + kw.1 + kw.2)
    let t2 := w32 (sha256Sig0 a + sha256maj a b c)
    (w32 (t1 + t2), a, b, c, w32 (d + t1), e, f, g)

/-- Compress one 64-byte block into the state. -/
def sha256compress (st : Hash8) (block : List Nat) : Hash8 :=
  let ws := sha256schedule (bytesToWords block)
  match (sha256K.zip ws).foldl sha256round
      (st.h0, st.h1, st.h2, st.h3, st.h4, st.h5, st.h6, st.h7) with
  | (a, b, c, d, e, f, g, h) =>
    ⟨w32 (st.h0 + a), w32 (st.h1 + b), w32 (st.h2 + c), w32 (st.h3 + d),
     w32 (st.h4 + e), w32 (st.h5 + f), w32 (st.h6 + g), w32 (st.h7 + h)⟩

/-- Absorb one byte: buffer it, compressing whenever 64 bytes are held. -/
def sha256absorb (st : Hash8 × List Nat) (b : Nat) : Hash8 × List Nat :=
  let buf := st.2 ++ [b]
  if buf.length = 64 then (sha256compress st.1 buf, []) else (st.1, buf)

/-- Big-endian bytes of a 32-bit word. -/
def wordBytes (x : Nat) : List Nat :=
  [(x >>> 24) % 256, (x >>> 16) % 256, (x >>> 8) % 256, x % 256]

/-- The 32 digest bytes of a final state. -/
def sha256digest (st : Hash8) : List Nat :=
  wordBytes st.h0 ++ wordBytes st.h1 ++ wordBytes st.h2 ++ wordBytes st.h3 ++
  wordBytes st.h4 ++ wordBytes st.h5 ++ wordBytes st.h6 ++ wordBytes st.h7

/-- Big-endian bytes of the 64-bit bit length. -/
def lenBytes (bits : Nat) : List Nat :=
  [(bits >>> 56) % 256, (bits >>> 48) % 256, (bits >>> 40) % 256,
   (bits >>> 32) % 256, (bits >>> 24) % 256, (bits >>> 16) % 256,
   (bits >>> 8) % 256, bits % 256]

/-- SHA-256 padding: `0x80`, zeros to 56 mod 64, the bit length. -/
def sha256pad (msg : List Nat) : List Nat :=
  msg ++ 128 :: List.replicate ((119 - msg.length % 64) % 64) 0 ++
    lenBytes (msg.length * 8)

/-- SHA-256 of a byte list. -/
def sha256 (msg : List Nat) : List Nat :=
  sha256digest ((sha256pad msg).foldl sha256absorb (sha256init, [])).1

/-- One lowercase hexadecimal digit (`hex::encode`'s alphabet). -/
def hexDigit (n : Nat) : Char :=
  if n = 0 then '0' else if n = 1 then '1' else if n = 2 then '2'
  else if n = 3 then '3' else if n = 4 then '4' else if n = 5 then '5'
  else if n = 6 then '6' else if n = 7 then '7' else if n = 8 then '8'
  else if n = 9 then '9' else if n = 10 then 'a' else if n = 11 then 'b'
  else if n = 12 then 'c' else if n = 13 then 'd' else if n = 14 then 'e'
  else if n = 15 then 'f' else '0'

/-- Two lowercase hex digits per byte, high nibble first. -/
def hexEncodeChars : List Nat → List Char
  | [] => []
  | b :: rest => hexDigit (b / 16 % 16) :: hexDigit (b % 16) :: hexEncodeChars rest

/-- `hex::encode` -/
def hexEncode (l : List Nat) : String := String.mk (hexEncodeChars l)

/-- UTF-8 encoding of one character (what `String::as_bytes` exposes). -/
def utf8EncodeChar (c : Char) : List Nat :=
  let n := c.toNat
  if n < 128 then [n]
  else if n < 2048 then [192 ||| (n >>> 6), 128 ||| (n &&& 63)]
  else if n < 65536 then
    [224 ||| (n >>> 12), 128 ||| ((n >>> 6) &&& 63), 128 ||| (n &&& 63)]
  else
    [240 ||| (n >>> 18), 128 ||| ((n >>> 12) &&& 63),
     128 ||| ((n >>> 6) &&& 63), 128 ||| (n &&& 63)]

/-- The UTF-8 bytes of a Rust `String`/`&str`. -/
def strBytes (s : String) : List Nat := (s.data.map utf8EncodeChar).flatten

/-! ## The host model

One structure per host object the source touches.  A field holds the
outcome the host would give to the one call the source makes on it;
fallible `web_sys` calls are `Except JsErr`, JS property lookups through
`js_sys::Reflect::get` are `Except JsErr JsValue`. -/

/-- `web_sys::Screen`: the six geometry getters, each `Result<i32, _>`. -/
structure Screen where
  width : Except JsErr Int
  height : Except JsErr Int
  color_depth : Except JsErr Int
  pixel_depth : Except JsErr Int
  avail_width : Except JsErr Int
  avail_height : Except JsErr Int

/-- A `navigator.plugins` entry: `name()` and `description()`. -/
structure Plugin where
  name : String
  description : String

/-- A `navigator.mimeTypes` entry: `type_()`. -/
structure MimeType where
  typeStr : String

/-- `web_sys::Navigator`, restricted to the calls the source makes. -/
structure Navigator where
  user_agent : Except JsErr String
  language : Option String
  languages : List JsValue
  platform : Except JsErr String
  cookieEnabled : Except JsErr JsValue
  doNotTrack : Except JsErr JsValue
  hardware_concurrency : F64
  deviceMemory : Except JsErr JsValue
  max_touch_points : Int
  on_line : Bool
  plugins : Except JsErr (List Plugin)
  mime_types : Except JsErr (List MimeType)

/-- The typed 2D context (`CanvasRenderingContext2d`): outcomes of the
three fallible drawing calls the fixed drawing program makes, in program
order.  The infallible calls (`set_fill_style_str`, `fill_rect`,
`set_font`, `begin_path`, `move_to`, `line_to`, `close_path`, `fill`)
return `()` and act only through the host's raster, which the model reads
back through `Canvas.toDataUrl`. -/
structure Ctx2d where
  fillText1 : Except JsErr Unit
  fillText2 : Except JsErr Unit
  arcRes : Except JsErr Unit

/-- What `get_context("2d")` hands back before the
`dyn_into::<CanvasRenderingContext2d>` cast. -/
structure Ctx2dObj where
  asCtx2d : Except JsErr Ctx2d

/-- The `WEBGL_debug_renderer_info` extension object: its two reflected
enum properties. -/
structure DebugExt where
  unmaskedVendorEnum : Except JsErr JsValue
  unmaskedRendererEnum : Except JsErr JsValue

/-- The typed WebGL1 context (`WebGlRenderingContext`). -/
structure WebGl1Ctx where
  getExtensionDebug : Except JsErr (Option DebugExt)
  getParameter : Nat → Except JsErr JsValue
  getSupportedExtensions : Option (List JsValue)

/-- The WebGL2 context as the reflective path sees it: the three reflected
properties, and the outcomes of calling them.  `callGetParameter` is keyed
by the numeric parameter code the source passes as `f64`. -/
structure GlRefl where
  getParameterProp : Except JsErr JsValue
  getExtensionProp : Except JsErr JsValue
  getSupportedExtensionsProp : Except JsErr JsValue
  callGetParameter : Nat → Except JsErr JsValue
  callGetExtensionDebug : Except JsErr JsValue
  callGetSupportedExtensions : Except JsErr JsValue

/-- What `get_context("webgl")`/`get_context("experimental-webgl")` hands
back before the `dyn_into::<WebGlRenderingContext>` cast. -/
structure GlObj where
  asWebgl1 : Except JsErr WebGl1Ctx

/-- An `HtmlCanvasElement` and the contexts the host grants it. -/
structure Canvas where
  getContext2d : Except JsErr (Option Ctx2dObj)
  getContextWebgl : Except JsErr (Option GlObj)
  getContextExperimentalWebgl : Except JsErr (Option GlObj)
  getContextWebgl2 : Except JsErr (Option GlRefl)
  toDataUrl : Except JsErr String

/-- What `document.create_element("canvas")` hands back before the
`dyn_into::<HtmlCanvasElement>` cast. -/
structure Element where
  asCanvas : Except JsErr Canvas

/-- `web_sys::Document`, restricted to the one call the source makes. -/
structure Document where
  createElementCanvas : Except JsErr Element

/-- The `Intl.DateTimeFormat` lookup chain of `get_timezone`, one field
per step: the reflected `Intl` global, its `DateTimeFormat` property, the
result of calling it, the formatter's `resolvedOptions` property, the
result of calling that, and the options' `timeZone` property. -/
structure TzHost where
  intl : Except JsErr JsValue
  dateTimeFormat : Except JsErr JsValue
  dtfCall : Except JsErr JsValue
  resolvedOptions : Except JsErr JsValue
  resolvedCall : Except JsErr JsValue
  timeZone : Except JsErr JsValue

/-- `web_sys::Window`, restricted to the calls the source makes. -/
structure Window where
  navigator : Navigator
  screen : Except JsErr Screen
  document : Option Document
  device_pixel_ratio : F64
  local_storage : Except JsErr (Option Unit)
  session_storage : Except JsErr (Option Unit)
  indexedDB : Except JsErr JsValue

/-- The whole host: `web_sys::window()`, the global `Intl` chain, and the
value of `js_sys::Date::new_0().get_timezone_offset()` after its `as i32`
cast. -/
structure Host where
  window : Option Window
  tz : TzHost
  dateTimezoneOffset : Int

/-! ## The fingerprint record (`struct Fingerprint`) -/

structure Fingerprint where
  user_agent : String
  language : String
  languages : List String
  platform : String
  cookie_enabled : Bool
  do_not_track : Option String
  hardware_concurrency : Option Nat
  device_memory : Option F64
  max_touch_points : Nat
  screen_width : Int
  screen_height : Int
  screen_color_depth : Int
  screen_pixel_depth : Int
  screen_avail_width : Int
  screen_avail_height : Int
  device_pixel_ratio : F64
  timezone : String
  timezone_offset : Int
  local_storage : Bool
  session_storage : Bool
  indexed_db : Bool
  canvas_fingerprint : String
  webgl_vendor : String
  webgl_renderer : String
  webgl_version : String
  webgl_shading_language_version : String
  webgl_extensions : List String
  audio_fingerprint : String
  plugins : List String
  mime_types : List String
  online : Bool
  fingerprint_hash : String

/-! ## The probe helpers (lines 201-276, 513-541 of `lib.rs`) -/

/-- `fn get_languages` -/
def get_languages (navigator : Navigator) : List String :=
  let result := navigator.languages.filterMap JsValue.as_string
  if result.isEmpty then
    match navigator.language with
    | some lang => [lang]
    | none => []
  else result

/-- `fn get_cookie_enabled` -/
def get_cookie_enabled (navigator : Navigator) : Bool :=
  (((exceptToOption navigator.cookieEnabled).bind JsValue.as_bool).getD false)

/-- `fn get_do_not_track` -/
def get_do_not_track (navigator : Navigator) : Option String :=
  (exceptToOption navigator.doNotTrack).bind JsValue.as_string

/-- `fn get_device_memory` (looks `window()` up again itself). -/
def get_device_memory (h : Host) : Option F64 :=
  match h.window with
  | none => none
  | some w => (exceptToOption w.navigator.deviceMemory).bind JsValue.as_f64

/-- `fn get_timezone`: the nested `if let` chain; every failed step falls
through to `"Unknown"`. -/
def get_timezone (h : TzHost) : String :=
  match h.intl with
  | .error _ => "Unknown"
  | .ok _ =>
  match h.dateTimeFormat with
  | .error _ => "Unknown"
  | .ok dtf =>
  match dynIntoFunction dtf with
  | .error _ => "Unknown"
  | .ok _ =>
  match h.dtfCall with
  | .error _ => "Unknown"
  | .ok _ =>
  match h.resolvedOptions with
  | .error _ => "Unknown"
  | .ok resolved =>
  match dynIntoFunction resolved with
  | .error _ => "Unknown"
  | .ok _ =>
  match h.resolvedCall with
  | .error _ => "Unknown"
  | .ok _ =>
  match h.timeZone with
  | .error _ => "Unknown"
  | .ok tzv =>
  match tzv.as_string with
  | some tz_str => tz_str
  | none => "Unknown"

/-- `fn check_indexed_db` (looks `window()` up again itself). -/
def check_indexed_db (h : Host) : Bool :=
  match h.window with
  | some w =>
    match w.indexedDB with
    | .ok v => !v.isUndefined && !v.isNull
    | .error _ => false
  | none => false

/-- `fn get_plugins` -/
def get_plugins (navigator : Navigator) : List String :=
  match navigator.plugins with
  | .ok plugin_array =>
      plugin_array.map (fun p => p.name ++ " (" ++ p.description ++ ")")
  | .error _ => []

/-- `fn get_mime_types` -/
def get_mime_types (navigator : Navigator) : List String :=
  match navigator.mime_types with
  | .ok mime_array => mime_array.map MimeType.typeStr
  | .error _ => []

/-! ## Canvas fingerprint (lines 278-326) -/

/-- `fn generate_canvas_fingerprint`: creates the 280x60 surface, runs the
fixed drawing program, digests `to_data_url()`.  Each `?` of the source is
a `match` propagating the error; the infallible drawing calls act only
through the host raster read back by `toDataUrl`. -/
def generate_canvas_fingerprint (document : Document) : Except JsErr String :=
  match document.createElementCanvas with
  | .error e => .error e
  | .ok el =>
  match el.asCanvas with
  | .error e => .error e
  | .ok canvas =>
  match canvas.getContext2d with
  | .error e => .error e
  | .ok none => .error "Failed to get 2d context"
  | .ok (some ctxObj) =>
  match ctxObj.asCtx2d with
  | .error e => .error e
  | .ok context =>
  match context.fillText1 with
  | .error e => .error e
  | .ok _ =>
  match context.fillText2 with
  | .error e => .error e
  | .ok _ =>
  match context.arcRes with
  | .error e => .error e
  | .ok _ =>
  match canvas.toDataUrl with
  | .error e => .error e
  | .ok data_url => .ok (hexEncode (sha256 (strBytes data_url)))

/-! ## WebGL introspection (lines 328-511) -/

/-- `WebGlRenderingContext::VENDOR` -/
def GL_VENDOR : Nat := 0x1F00
/-- `WebGlRenderingContext::RENDERER` -/
def GL_RENDERER : Nat := 0x1F01
/-- `WebGlRenderingContext::VERSION` -/
def GL_VERSION : Nat := 0x1F02
/-- `WebGlRenderingContext::SHADING_LANGUAGE_VERSION` -/
def GL_SHADING_LANGUAGE_VERSION : Nat := 0x8B8C

/-- `fn get_webgl1_info`: the typed extraction path. -/
def get_webgl1_info (gl : WebGl1Ctx) :
    Except JsErr (String × String × String × String × List String) :=
  let debug_info := exceptJoin gl.getExtensionDebug
  let vendorRenderer : String × String :=
    match debug_info with
    | some debug_ext =>
      let unmasked_vendor_enum : Option Nat :=
        (((exceptToOption debug_ext.unmaskedVendorEnum).bind JsValue.as_f64).map
          F64.toU32)
      let unmasked_renderer_enum : Option Nat :=
        (((exceptToOption debug_ext.unmaskedRendererEnum).bind JsValue.as_f64).map
          F64.toU32)
      let vendor :=
        (((unmasked_vendor_enum.bind fun e =>
            exceptToOption (gl.getParameter e)).bind JsValue.as_string).getD
          (((exceptToOption (gl.getParameter GL_VENDOR)).bind
            JsValue.as_string).getD ""))
      let renderer :=
        (((unmasked_renderer_enum.bind fun e =>
            exceptToOption (gl.getParameter e)).bind JsValue.as_string).getD
          (((exceptToOption (gl.getParameter GL_RENDERER)).bind
            JsValue.as_string).getD ""))
      (vendor, renderer)
    | none =>
      ((((exceptToOption (gl.getParameter GL_VENDOR)).bind
          JsValue.as_string).getD ""),
       (((exceptToOption (gl.getParameter GL_RENDERER)).bind
          JsValue.as_string).getD ""))
  let version :=
    ((exceptToOption (gl.getParameter GL_VERSION)).bind JsValue.as_string).getD ""
  let shading_version :=
    ((exceptToOption (gl.getParameter GL_SHADING_LANGUAGE_VERSION)).bind
      JsValue.as_string).getD ""
  let extensions : List String :=
    (gl.getSupportedExtensions.map fun exts =>
      exts.filterMap JsValue.as_string).getD []
  .ok (vendorRenderer.1, vendorRenderer.2, version, shading_version, extensions)

/-- `fn get_webgl_info_via_reflection`: the reflective path over an opaque
WebGL2 handle.  Every `?` of the source is a `match` propagating the
error. -/
def get_webgl_info_via_reflection (gl : GlRefl) :
    Except JsErr (String × String × String × String × List String) :=
  match gl.getParameterProp with
  | .error e => .error e
  | .ok get_parameter =>
  match dynIntoFunction get_parameter with
  | .error e => .error e
  | .ok _ =>
  match gl.getExtensionProp with
  | .error e => .error e
  | .ok get_extension =>
  match dynIntoFunction get_extension with
  | .error e => .error e
  | .ok _ =>
  match gl.callGetExtensionDebug with
  | .error e => .error e
  | .ok debug_ext =>
  let vendorRendererE : Except JsErr (String × String) :=
    if !debug_ext.isNull && !debug_ext.isUndefined then
      match gl.callGetParameter 37445 with
      | .error e => .error e
      | .ok uv =>
      match gl.callGetParameter 37446 with
      | .error e => .error e
      | .ok ur => .ok ((uv.as_string).getD "", (ur.as_string).getD "")
    else
      match gl.callGetParameter GL_VENDOR with
      | .error e => .error e
      | .ok v =>
      match gl.callGetParameter GL_RENDERER with
      | .error e => .error e
      | .ok r => .ok ((v.as_string).getD "", (r.as_string).getD "")
  match vendorRendererE with
  | .error e => .error e
  | .ok vendorRenderer =>
  match gl.callGetParameter GL_VERSION with
  | .error e => .error e
  | .ok ver =>
  let version := (ver.as_string).getD ""
  match gl.callGetParameter GL_SHADING_LANGUAGE_VERSION with
  | .error e => .error e
  | .ok sv =>
  let shading_version := (sv.as_string).getD ""
  match gl.getSupportedExtensionsProp with
  | .error e => .error e
  | .ok gse =>
  match dynIntoFunction gse with
  | .error e => .error e
  | .ok _ =>
  match gl.callGetSupportedExtensions with
  | .error e => .error e
  | .ok extensions_array =>
  let extensions : List String :=
    match extensions_array with
    | .arr a => a.filterMap JsValue.as_string
    | _ => []
  .ok (vendorRenderer.1, vendorRenderer.2, version, shading_version, extensions)

/-- Lines 350-362 of `fn get_webgl_info`: the WebGL2 fallback taken when
the WebGL1 branch did not return, then the "Not available" terminal
state. -/
def webgl2Fallback (canvas : Canvas) :
    Except JsErr (String × String × String × String × List String) :=
  match canvas.getContextWebgl2 with
  | .ok (some gl2_value) => get_webgl_info_via_reflection gl2_value
  | _ =>
    .ok ("Not available", "Not available", "Not available", "Not available", [])

/-- `fn get_webgl_info`: canvas creation, the two WebGL1 aliases, then
`webgl2Fallback`. -/
def get_webgl_info (document : Document) :
    Except JsErr (String × String × String × String × List String) :=
  match document.createElementCanvas with
  | .error e => .error e
  | .ok el =>
  match el.asCanvas with
  | .error e => .error e
  | .ok canvas =>
  let gl_result : Option GlObj :=
    match exceptJoin canvas.getContextWebgl with
    | some g => some g
    | none => exceptJoin canvas.getContextExperimentalWebgl
  match gl_result with
  | some gl_value =>
    match gl_value.asWebgl1 with
    | .ok gl => get_webgl1_info gl
    | .error _ => webgl2Fallback canvas
  | none => webgl2Fallback canvas

/-! ## Canonical hasher (lines 543-563) -/

/-- `fn generate_hash`: one streaming `Sha256` fed the thirteen canonical
fields in source order, hex-encoded.  `update` accumulates bytes;
`finalize` is `sha256` of the accumulated stream. -/
def generate_hash (fingerprint : Fingerprint) : String :=
  let hasher : List Nat := []
  let hasher := hasher ++ strBytes fingerprint.user_agent
  let hasher := hasher ++ strBytes fingerprint.language
  let hasher := hasher ++ strBytes fingerprint.platform
  let hasher := hasher ++ strBytes (Nat.repr (fingerprint.hardware_concurrency.getD 0))
  let hasher := hasher ++ strBytes (Int.repr fingerprint.screen_width)
  let hasher := hasher ++ strBytes (Int.repr fingerprint.screen_height)
  let hasher := hasher ++ strBytes (Int.repr fingerprint.screen_color_depth)
  let hasher := hasher ++ strBytes (F64.toStr fingerprint.device_pixel_ratio)
  let hasher := hasher ++ strBytes fingerprint.timezone
  let hasher := hasher ++ strBytes (Int.repr fingerprint.timezone_offset)
  let hasher := hasher ++ strBytes fingerprint.canvas_fingerprint
  let hasher := hasher ++ strBytes fingerprint.webgl_vendor
  let hasher := hasher ++ strBytes fingerprint.webgl_renderer
  hexEncode (sha256 hasher)

/-! ## `BrowserFingerprinter::collect` (lines 82-192) -/

/-- `i32 as u32` (Rust integer `as` casts reinterpret mod 2^32). -/
def u32OfI32 (i : Int) : Nat := (i % 4294967296).toNat

/-- The scalar fields lines 90-119 of `collect` bind, in declaration
order. -/
structure ProbeData where
  user_agent : String
  language : String
  languages : List String
  platform : String
  cookie_enabled : Bool
  do_not_track : Option String
  hardware_concurrency : Option Nat
  device_memory : Option F64
  max_touch_points : Nat
  screen_width : Int
  screen_height : Int
  screen_color_depth : Int
  screen_pixel_depth : Int
  screen_avail_width : Int
  screen_avail_height : Int
  device_pixel_ratio : F64
  timezone : String
  timezone_offset : Int
  local_storage : Bool
  session_storage : Bool
  indexed_db : Bool

/-- Lines 84-119 of `collect`: the capability-probe stage.  The three
`?`/`ok_or` aborts (window, screen, document) come first; every later
read has its `unwrap_or`-style default.  Returns the document and
navigator handles the later stages reuse. -/
def probeStage (h : Host) : Except JsErr (Document × Navigator × ProbeData) :=
  match h.window with
  | none => .error "No window object"
  | some window =>
  let navigator := window.navigator
  match window.screen with
  | .error _ => .error "No screen object"
  | .ok screen =>
  match window.document with
  | none => .error "No document object"
  | some document =>
  .ok (document, navigator,
    { user_agent := (exceptToOption navigator.user_agent).getD ""
      language := navigator.language.getD ""
      languages := get_languages navigator
      platform := (exceptToOption navigator.platform).getD ""
      cookie_enabled := get_cookie_enabled navigator
      do_not_track := get_do_not_track navigator
      hardware_concurrency := some navigator.hardware_concurrency.toU32
      device_memory := get_device_memory h
      max_touch_points := u32OfI32 navigator.max_touch_points
      screen_width := (exceptToOption screen.width).getD 0
      screen_height := (exceptToOption screen.height).getD 0
      screen_color_depth := (exceptToOption screen.color_depth).getD 0
      screen_pixel_depth := (exceptToOption screen.pixel_depth).getD 0
      screen_avail_width := (exceptToOption screen.avail_width).getD 0
      screen_avail_height := (exceptToOption screen.avail_height).getD 0
      device_pixel_ratio := window.device_pixel_ratio
      timezone := get_timezone h.tz
      timezone_offset := h.dateTimezoneOffset
      local_storage := (exceptJoin window.local_storage).isSome
      session_storage := (exceptJoin window.session_storage).isSome
      indexed_db := check_indexed_db h })

/-- Lines 84-185 of `collect`: the record construction.  After the probe
stage, the two fatal stages (canvas fingerprint, WebGL info) run in source
order, then the record is assembled with an empty hash and
`fingerprint_hash` is filled by `generate_hash`.  (The wasm wrapper's
`serde_json` rendering of the finished record, out of scope per the spec,
is not modelled: the record itself is returned.) -/
def collectRecord (h : Host) : Except JsErr Fingerprint :=
  match probeStage h with
  | .error e => .error e
  | .ok (document, navigator, p) =>
  match generate_canvas_fingerprint document with
  | .error e => .error e
  | .ok canvas_fingerprint =>
  match get_webgl_info document with
  | .error e => .error e
  | .ok (webgl_vendor, webgl_renderer, webgl_version,
         webgl_shading_language_version, webgl_extensions) =>
  let audio_fingerprint := "audio-context-available"
  let plugins := get_plugins navigator
  let mime_types := get_mime_types navigator
  let online := navigator.on_line
  let fp : Fingerprint :=
    { user_agent := p.user_agent
      language := p.language
      languages := p.languages
      platform := p.platform
      cookie_enabled := p.cookie_enabled
      do_not_track := p.do_not_track
      hardware_concurrency := p.hardware_concurrency
      device_memory := p.device_memory
      max_touch_points := p.max_touch_points
      screen_width := p.screen_width
      screen_height := p.screen_height
      screen_color_depth := p.screen_color_depth
      screen_pixel_depth := p.screen_pixel_depth
      screen_avail_width := p.screen_avail_width
      screen_avail_height := p.screen_avail_height
      device_pixel_ratio := p.device_pixel_ratio
      timezone := p.timezone
      timezone_offset := p.timezone_offset
      local_storage := p.local_storage
      session_storage := p.session_storage
      indexed_db := p.indexed_db
      canvas_fingerprint := canvas_fingerprint
      webgl_vendor := webgl_vendor
      webgl_renderer := webgl_renderer
      webgl_version := webgl_version
      webgl_shading_language_version := webgl_shading_language_version
      webgl_extensions := webgl_extensions
      audio_fingerprint := audio_fingerprint
      plugins := plugins
      mime_types := mime_types
      online := online
      fingerprint_hash := "" }
  .ok { fp with fingerprint_hash := generate_hash fp }

/-- `struct BrowserFingerprinter`: the session, owning zero-or-one
record. -/
structure BrowserFingerprinter where
  fingerprint : Option Fingerprint

/-- `BrowserFingerprinter::new` -/
def BrowserFingerprinter.new : BrowserFingerprinter := ⟨none⟩

/-- `BrowserFingerprinter::collect`: on success stores the record and
returns it; any earlier `?` returns the error with `self.fingerprint`
untouched (the assignment is the last statement of the Rust body). -/
def BrowserFingerprinter.collect (self : BrowserFingerprinter) (h : Host) :
    Except JsErr Fingerprint × BrowserFingerprinter :=
  match collectRecord h with
  | .error e => (.error e, self)
  | .ok fp => (.ok fp, ⟨some fp⟩)

/-- `BrowserFingerprinter::get_hash` -/
def BrowserFingerprinter.get_hash (self : BrowserFingerprinter) : Option String :=
  self.fingerprint.map Fingerprint.fingerprint_hash

/-! ## Auxiliary definitions for the statements -/

/-- A lowercase hexadecimal digit (`hex::encode`'s alphabet). -/
def isLowerHexChar (c : Char) : Bool := "0123456789abcdef".data.contains c

/-- A capability description of one host 3D context: vendor, renderer,
version, shading-language version, extension list, and whether the
`WEBGL_debug_renderer_info` extension is obtainable.  Used to expose the
same capabilities to both extraction paths. -/
structure GlCaps where
  vendor : String
  renderer : String
  version : String
  shadingVersion : String
  extensions : List String
  debug : Bool

/-- The parameter table of a context exposing `c`: the four fixed codes
answer with the four strings; the standard unmasked codes 37445/37446
answer with vendor/renderer when the debug extension exists; anything
else answers `null`. -/
def capsParameter (c : GlCaps) (code : Nat) : Except JsErr JsValue :=
  if code = GL_VENDOR then .ok (.str c.vendor)
  else if code = GL_RENDERER then .ok (.str c.renderer)
  else if code = GL_VERSION then .ok (.str c.version)
  else if code = GL_SHADING_LANGUAGE_VERSION then .ok (.str c.shadingVersion)
  else if code = 37445 then (if c.debug then .ok (.str c.vendor) else .ok .nullV)
  else if code = 37446 then (if c.debug then .ok (.str c.renderer) else .ok .nullV)
  else .ok .nullV

/-- A legacy (WebGL1) context exposing exactly the capabilities `c`; the
debug extension, when obtainable, carries the standard enum codes. -/
def webgl1CtxOfCaps (c : GlCaps) : WebGl1Ctx :=
  { getExtensionDebug :=
      .ok (if c.debug then
        some ⟨.ok (.num (F64.ofNat 37445)), .ok (.num (F64.ofNat 37446))⟩
      else none)
    getParameter := capsParameter c
    getSupportedExtensions := some (c.extensions.map JsValue.str) }

/-- A newer (WebGL2) context exposing exactly the capabilities `c`
through its reflective surface. -/
def glReflOfCaps (c : GlCaps) : GlRefl :=
  { getParameterProp := .ok .func
    getExtensionProp := .ok .func
    getSupportedExtensionsProp := .ok .func
    callGetParameter := capsParameter c
    callGetExtensionDebug := .ok (if c.debug then .obj else .nullV)
    callGetSupportedExtensions := .ok (.arr (c.extensions.map JsValue.str)) }

/-- Modelled from the spec (§4.1): "query a locale-formatting API's
resolved configuration for a zone name" — the zone name the lookup chain
resolves to when every step succeeds and the final value is a string,
`none` when any step fails, is missing, or is not a string. -/
def resolvedTimeZone (h : TzHost) : Option String :=
  ((((((exceptToOption h.intl).bind fun _ =>
      exceptToOption h.dateTimeFormat).bind fun dtf =>
      (exceptToOption (dynIntoFunction dtf)).bind fun _ =>
      exceptToOption h.dtfCall).bind fun _ =>
      exceptToOption h.resolvedOptions).bind fun resolved =>
      (exceptToOption (dynIntoFunction resolved)).bind fun _ =>
      exceptToOption h.resolvedCall).bind fun _ =>
      exceptToOption h.timeZone).bind JsValue.as_string

/-! ## Concrete hosts and records for witnesses and counterexamples -/

/-- An `Intl` chain whose first lookup already fails. -/
def tzErr : TzHost :=
  ⟨.error "no Intl", .error "", .error "", .error "", .error "", .error ""⟩

/-- A navigator whose every read succeeds. -/
def navGood : Navigator :=
  { user_agent := .ok "UA"
    language := some "en"
    languages := [.str "en"]
    platform := .ok "Linux"
    cookieEnabled := .ok (.boolean true)
    doNotTrack := .ok .nullV
    hardware_concurrency := F64.ofNat 8
    deviceMemory := .ok .undefinedV
    max_touch_points := 0
    on_line := true
    plugins := .ok []
    mime_types := .ok [] }

def screenGood : Screen :=
  ⟨.ok 1920, .ok 1080, .ok 24, .ok 24, .ok 1920, .ok 1040⟩

/-- A 2D context whose drawing program runs to completion. -/
def ctx2dGood : Ctx2d := ⟨.ok (), .ok (), .ok ()⟩

/-- A canvas with a working 2D context and no 3D context of either
family. -/
def canvasGood : Canvas :=
  { getContext2d := .ok (some ⟨.ok ctx2dGood⟩)
    getContextWebgl := .ok none
    getContextExperimentalWebgl := .ok none
    getContextWebgl2 := .ok none
    toDataUrl := .ok "data:image/png;base64,AAAA" }

def elGood : Element := ⟨.ok canvasGood⟩

def docGood : Document := ⟨.ok elGood⟩

def windowGood : Window :=
  { navigator := navGood
    screen := .ok screenGood
    document := some docGood
    device_pixel_ratio := F64.ofNat 1
    local_storage := .ok (some ())
    session_storage := .ok (some ())
    indexedDB := .ok .obj }

/-- A fully working host (3D graphics absent, which is a valid terminal
state). -/
def hostGood : Host :=
  { window := some windowGood, tz := tzErr, dateTimezoneOffset := -60 }

/-- A host with no window object at all. -/
def hostNoWindow : Host :=
  { window := none, tz := tzErr, dateTimezoneOffset := 0 }

/-- A window whose `screen()` call fails although the document is
present. -/
def windowNoScreen : Window :=
  { windowGood with screen := .error "screen denied" }

/-- Window and document present, screen acquisition failing. -/
def hostNoScreen : Host :=
  { window := some windowNoScreen, tz := tzErr, dateTimezoneOffset := 0 }

/-- A canvas that grants no 2D context. -/
def canvasNoCtx2d : Canvas := { canvasGood with getContext2d := .ok none }

def docNoCtx2d : Document := ⟨.ok ⟨.ok canvasNoCtx2d⟩⟩

/-- A working host whose canvas grants no 2D context. -/
def hostNoCtx2d : Host :=
  { window := some { windowGood with document := some docNoCtx2d }
    tz := tzErr
    dateTimezoneOffset := -60 }

/-- The probe fields every host built over `windowGood`'s reads
produces. -/
def probeGoodData : ProbeData :=
  { user_agent := "UA"
    language := "en"
    languages := ["en"]
    platform := "Linux"
    cookie_enabled := true
    do_not_track := none
    hardware_concurrency := some 8
    device_memory := none
    max_touch_points := 0
    screen_width := 1920
    screen_height := 1080
    screen_color_depth := 24
    screen_pixel_depth := 24
    screen_avail_width := 1920
    screen_avail_height := 1040
    device_pixel_ratio := F64.ofNat 1
    timezone := "Unknown"
    timezone_offset := -60
    local_storage := true
    session_storage := true
    indexed_db := true }

/-- A navigator whose every property read fails or is absent. -/
def navAllFail : Navigator :=
  { user_agent := .error "x"
    language := none
    languages := []
    platform := .error "x"
    cookieEnabled := .error "x"
    doNotTrack := .error "x"
    hardware_concurrency := F64.ofNat 0
    deviceMemory := .error "x"
    max_touch_points := 0
    on_line := false
    plugins := .error "x"
    mime_types := .error "x" }

def screenAllFail : Screen :=
  ⟨.error "x", .error "x", .error "x", .error "x", .error "x", .error "x"⟩

def docAllFail : Document := ⟨.error "x"⟩

/-- Window, screen and document handles present, every individual
property read failing. -/
def hostAllFail : Host :=
  { window := some
      { navigator := navAllFail
        screen := .ok screenAllFail
        document := some docAllFail
        device_pixel_ratio := F64.ofNat 0
        local_storage := .error "x"
        session_storage := .error "x"
        indexedDB := .error "x" }
    tz := tzErr
    dateTimezoneOffset := 0 }

/-- The documented defaults: empty string, `0`, `false`, empty list,
`"Unknown"` for timezone — with `hardware_concurrency` still present. -/
def probeDefaultData : ProbeData :=
  { user_agent := ""
    language := ""
    languages := []
    platform := ""
    cookie_enabled := false
    do_not_track := none
    hardware_concurrency := some 0
    device_memory := none
    max_touch_points := 0
    screen_width := 0
    screen_height := 0
    screen_color_depth := 0
    screen_pixel_depth := 0
    screen_avail_width := 0
    screen_avail_height := 0
    device_pixel_ratio := F64.ofNat 0
    timezone := "Unknown"
    timezone_offset := 0
    local_storage := false
    session_storage := false
    indexed_db := false }

/-- A fully populated record; the excluded-field mutations in `fpAlt`
leave `generate_hash` unchanged. -/
def fpBase : Fingerprint :=
  { user_agent := "Mozilla/5.0"
    language := "en-US"
    languages := ["en-US", "en"]
    platform := "Linux x86_64"
    cookie_enabled := true
    do_not_track := none
    hardware_concurrency := some 8
    device_memory := some (F64.ofNat 8)
    max_touch_points := 0
    screen_width := 1920
    screen_height := 1080
    screen_color_depth := 24
    screen_pixel_depth := 24
    screen_avail_width := 1920
    screen_avail_height := 1040
    device_pixel_ratio := F64.ofNat 1
    timezone := "Europe/Lisbon"
    timezone_offset := -60
    local_storage := true
    session_storage := true
    indexed_db := true
    canvas_fingerprint := "deadbeef"
    webgl_vendor := "Intel"
    webgl_renderer := "Mesa"
    webgl_version := "WebGL 1.0"
    webgl_shading_language_version := "WebGL GLSL ES 1.0"
    webgl_extensions := ["EXT_blend_minmax"]
    audio_fingerprint := "audio-context-available"
    plugins := []
    mime_types := []
    online := true
    fingerprint_hash := "" }

/-- `fpBase` with every field excluded from the hash mutated. -/
def fpAlt : Fingerprint :=
  { fpBase with
    online := false
    plugins := ["PDF Viewer (pdf)"]
    mime_types := ["application/pdf"]
    webgl_extensions := []
    local_storage := false
    session_storage := false
    indexed_db := false
    cookie_enabled := false
    audio_fingerprint := "other"
    do_not_track := some "1"
    languages := []
    device_memory := none
    max_touch_points := 5
    screen_pixel_depth := 30
    screen_avail_width := 1910
    screen_avail_height := 1020
    webgl_version := "WebGL 2.0"
    webgl_shading_language_version := "WebGL GLSL ES 3.00"
    fingerprint_hash := "stale" }

/-! ## Helper lemmas -/

/-- Unfolding `generate_hash`: the thirteen canonical byte strings, in
source order, fed to one digest. -/
theorem generate_hash_eq (fp : Fingerprint) :
    generate_hash fp = hexEncode (sha256 (
      strBytes fp.user_agent ++ strBytes fp.language ++ strBytes fp.platform ++
      strBytes (Nat.repr (fp.hardware_concurrency.getD 0)) ++
      strBytes (Int.repr fp.screen_width) ++
      strBytes (Int.repr fp.screen_height) ++
      strBytes (Int.repr fp.screen_color_depth) ++
      strBytes (F64.toStr fp.device_pixel_ratio) ++
      strBytes fp.timezone ++
      strBytes (Int.repr fp.timezone_offset) ++
      strBytes fp.canvas_fingerprint ++
      strBytes fp.webgl_vendor ++
      strBytes fp.webgl_renderer)) := by
  simp [generate_hash, List.append_assoc]

theorem hexEncodeChars_length (l : List Nat) :
    (hexEncodeChars l).length = 2 * l.length := by
  induction l with
  | nil => rfl
  | cons b rest ih => simp [hexEncodeChars, ih]; omega

theorem sha256digest_length (st : Hash8) : (sha256digest st).length = 32 := rfl

theorem sha256_length (m : List Nat) : (sha256 m).length = 32 :=
  sha256digest_length _

theorem hexEncode_sha256_length (m : List Nat) :
    (hexEncode (sha256 m)).length = 64 := by
  have h := hexEncodeChars_length (sha256 m)
  rw [sha256_length] at h
  simpa [hexEncode, String.length] using h

theorem hexDigit_lower (n : Nat) : isLowerHexChar (hexDigit n) = true := by
  match n with
  | 0 => decide
  | 1 => decide
  | 2 => decide
  | 3 => decide
  | 4 => decide
  | 5 => decide
  | 6 => decide
  | 7 => decide
  | 8 => decide
  | 9 => decide
  | 10 => decide
  | 11 => decide
  | 12 => decide
  | 13 => decide
  | 14 => decide
  | 15 => decide
  | _ + 16 => rfl

theorem hexEncodeChars_lower (l : List Nat) :
    (hexEncodeChars l).all isLowerHexChar = true := by
  induction l with
  | nil => rfl
  | cons b rest ih => simp [hexEncodeChars, hexDigit_lower, ih]

theorem hexEncode_data_lower (l : List Nat) :
    (hexEncode l).data.all isLowerHexChar = true :=
  hexEncodeChars_lower l

theorem filterMap_as_string_map_str (l : List String) :
    (l.map JsValue.str).filterMap JsValue.as_string = l := by
  induction l with
  | nil => rfl
  | cons s rest ih => simp [JsValue.as_string, ih]

theorem filterMap_as_string_comp_str (l : List String) :
    List.filterMap (JsValue.as_string ∘ JsValue.str) l = l := by
  induction l with
  | nil => rfl
  | cons s rest ih =>
    simp [List.filterMap_cons, Function.comp, JsValue.as_string, ih]

/-- The probe always stores `Some` hardware concurrency. -/
theorem probeStage_hardware_concurrency (h : Host) (d : Document)
    (n : Navigator) (p : ProbeData)
    (hp : probeStage h = .ok (d, n, p)) :
    p.hardware_concurrency = some n.hardware_concurrency.toU32 := by
  unfold probeStage at hp
  split at hp
  · exact absurd hp (by simp)
  · split at hp
    · exact absurd hp (by simp)
    · split at hp
      · exact absurd hp (by simp)
      · simp only [Except.ok.injEq, Prod.mk.injEq] at hp
        obtain ⟨-, hn, hpp⟩ := hp
        subst hn hpp
        rfl

/-! ## The claims -/

/-- C1: for every fully populated fingerprint record, `generate_hash`
returns the lowercase hex encoding of a single 256-bit SHA-256 digest fed
exactly the thirteen fields user_agent, language, platform,
hardware_concurrency (absent canonicalizing to `"0"` via `unwrap_or(0)`),
screen_width, screen_height, screen_color_depth, device_pixel_ratio,
timezone, timezone_offset, canvas_fingerprint, webgl_vendor,
webgl_renderer, in exactly this order, numeric fields in decimal string
form; the equality to the explicit byte concatenation shows no other
field of the record is read. -/
theorem c1_generate_hash_canonical (fp : Fingerprint) :
    generate_hash fp = hexEncode (sha256 (
      strBytes fp.user_agent ++ strBytes fp.language ++ strBytes fp.platform ++
      strBytes (Nat.repr (fp.hardware_concurrency.getD 0)) ++
      strBytes (Int.repr fp.screen_width) ++
      strBytes (Int.repr fp.screen_height) ++
      strBytes (Int.repr fp.screen_color_depth) ++
      strBytes (F64.toStr fp.device_pixel_ratio) ++
      strBytes fp.timezone ++
      strBytes (Int.repr fp.timezone_offset) ++
      strBytes fp.canvas_fingerprint ++
      strBytes fp.webgl_vendor ++
      strBytes fp.webgl_renderer))
    ∧ (generate_hash fp).length = 64
    ∧ (generate_hash fp).data.all isLowerHexChar = true := by
  refine ⟨generate_hash_eq fp, ?_, ?_⟩
  · rw [generate_hash_eq fp]
    exact hexEncode_sha256_length _
  · rw [generate_hash_eq fp]
    exact hexEncode_data_lower _

/-- C2: two records that agree on the thirteen hashed fields get the same
digest from `generate_hash`, however the excluded fields (online, plugins,
mime_types, webgl_extensions, storage flags, cookie flag, audio
placeholder, do_not_track, languages, device_memory, max_touch_points,
screen_pixel_depth, screen_avail_width/height, webgl_version,
webgl_shading_language_version) differ. -/
theorem c2_hash_ignores_excluded_fields (fp fp' : Fingerprint)
    (h1 : fp.user_agent = fp'.user_agent)
    (h2 : fp.language = fp'.language)
    (h3 : fp.platform = fp'.platform)
    (h4 : fp.hardware_concurrency = fp'.hardware_concurrency)
    (h5 : fp.screen_width = fp'.screen_width)
    (h6 : fp.screen_height = fp'.screen_height)
    (h7 : fp.screen_color_depth = fp'.screen_color_depth)
    (h8 : fp.device_pixel_ratio = fp'.device_pixel_ratio)
    (h9 : fp.timezone = fp'.timezone)
    (h10 : fp.timezone_offset = fp'.timezone_offset)
    (h11 : fp.canvas_fingerprint = fp'.canvas_fingerprint)
    (h12 : fp.webgl_vendor = fp'.webgl_vendor)
    (h13 : fp.webgl_renderer = fp'.webgl_renderer) :
    generate_hash fp = generate_hash fp' := by
  rw [generate_hash_eq fp, generate_hash_eq fp',
    h1, h2, h3, h4, h5, h6, h7, h8, h9, h10, h11, h12, h13]

/-- C2 witness: `fpBase` and `fpAlt` differ on every excluded field
(`online` among them) and hash identically. -/
theorem c2_witness :
    fpBase.online = true ∧ fpAlt.online = false ∧
    fpBase.plugins ≠ fpAlt.plugins ∧
    generate_hash fpBase = generate_hash fpAlt :=
  ⟨rfl, rfl, by decide,
    c2_hash_ignores_excluded_fields fpBase fpAlt
      rfl rfl rfl rfl rfl rfl rfl rfl rfl rfl rfl rfl rfl⟩

/-- C3: whenever `collect()` returns an error — at whatever stage — the
session's stored fingerprint is exactly what it was before the call, so a
subsequent `get_hash()` returns what it would have returned before. -/
theorem c3_collect_error_preserves_state (h : Host) (s : BrowserFingerprinter)
    (e : JsErr) (herr : (s.collect h).1 = .error e) :
    (s.collect h).2 = s ∧ (s.collect h).2.get_hash = s.get_hash := by
  unfold BrowserFingerprinter.collect at *
  rcases hc : collectRecord h with e' | fp
  · exact ⟨rfl, rfl⟩
  · rw [hc] at herr
    simp at herr

/-- C3 witness: against a host with no window object a fresh session's
`collect` fails and `get_hash` still returns absent. -/
theorem c3_witness :
    ((BrowserFingerprinter.new).collect hostNoWindow).1 = .error "No window object" ∧
    ((BrowserFingerprinter.new).collect hostNoWindow).2.get_hash = none :=
  ⟨rfl,
    ((c3_collect_error_preserves_state hostNoWindow BrowserFingerprinter.new
      "No window object" rfl).2).trans rfl⟩

/-- C4 counterexample: a host whose window and document handles are both
present but whose `screen()` acquisition fails makes `collect` abort with
an error, refuting "the only condition that aborts the call with an error
is total absence of the window or document handles" and "failure ... of
any individual property read — including acquisition of the screen
object ... resolves to its documented default and collection
continues". -/
theorem c4_counterexample :
    hostNoScreen.window = some windowNoScreen ∧
    windowNoScreen.document = some docGood ∧
    collectRecord hostNoScreen = .error "No screen object" :=
  ⟨rfl, rfl, rfl⟩

/-- C4 (amended): within the capability-probe stage of `collect()`, the
conditions that abort the call with an error are exactly absence of the
window handle, failure to acquire the screen object, and absence of the
document handle; failure or absence of every other individual property
read resolves to its documented default (empty string, 0, false, empty
list, `"Unknown"` for timezone) and collection continues — witnessed by
the host whose every individual read fails. -/
theorem c4_probe_fatal_conditions :
    (∀ h : Host, exceptIsOk (probeStage h) = true ↔
      ∃ w, h.window = some w ∧ exceptIsOk w.screen = true ∧
        w.document.isSome = true)
    ∧ probeStage hostAllFail = .ok (docAllFail, navAllFail, probeDefaultData) := by
  refine ⟨fun h => ?_, rfl⟩
  unfold probeStage
  rcases hw : h.window with - | w
  · simp [exceptIsOk, hw]
  · rcases hs : w.screen with e | sc
    · simp [exceptIsOk, hw, hs]
    · rcases hd : w.document with - | d
      · simp [exceptIsOk, hw, hs, hd]
      · simp [exceptIsOk, hw, hs, hd]

/-- C5: when the legacy 3D family fails under both of its name aliases
and the newer family's acquisition also fails, `get_webgl_info` returns
successfully with all four graphics strings `"Not available"` and an
empty extension list. -/
theorem c5_no_graphics_fallback (d : Document) (el : Element) (c : Canvas)
    (h1 : d.createElementCanvas = .ok el)
    (h2 : el.asCanvas = .ok c)
    (h3 : exceptJoin c.getContextWebgl = none)
    (h4 : exceptJoin c.getContextExperimentalWebgl = none)
    (h5 : exceptJoin c.getContextWebgl2 = none) :
    get_webgl_info d =
      .ok ("Not available", "Not available", "Not available", "Not available", []) := by
  rcases hg : c.getContextWebgl2 with e | o
  · simp [get_webgl_info, webgl2Fallback, h1, h2, h3, h4, hg]
  · rcases o with - | g
    · simp [get_webgl_info, webgl2Fallback, h1, h2, h3, h4, hg]
    · rw [hg] at h5
      exact absurd h5 (by simp [exceptJoin])

/-- C5 witness: a concrete canvas granting no 3D context of either
family. -/
theorem c5_witness :
    get_webgl_info docGood =
      .ok ("Not available", "Not available", "Not available", "Not available", []) :=
  c5_no_graphics_fallback docGood elGood canvasGood rfl rfl rfl rfl rfl

/-- C6: a legacy context and a newer reflective context exposing the same
vendor, renderer, version, shading-language version, extension list and
debug-extension availability produce the identical five-component
graphics tuple through their respective extraction paths. -/
theorem c6_dual_path_equivalence (c : GlCaps) :
    get_webgl1_info (webgl1CtxOfCaps c) =
      get_webgl_info_via_reflection (glReflOfCaps c)
    ∧ get_webgl1_info (webgl1CtxOfCaps c) =
        .ok (c.vendor, c.renderer, c.version, c.shadingVersion, c.extensions) := by
  obtain ⟨v, r, ver, sv, exts, dbg⟩ := c
  cases dbg <;>
    simp [get_webgl1_info, get_webgl_info_via_reflection, webgl1CtxOfCaps,
      glReflOfCaps, capsParameter, exceptJoin, exceptToOption, dynIntoFunction,
      GL_VENDOR, GL_RENDERER, GL_VERSION, GL_SHADING_LANGUAGE_VERSION,
      JsValue.as_string, JsValue.as_f64, JsValue.isNull, JsValue.isUndefined,
      F64.ofNat, F64.toU32, filterMap_as_string_map_str,
      filterMap_as_string_comp_str]

/-- C7: once the probe stage has passed, any failure inside
`generate_canvas_fingerprint` (surface creation, 2D context acquisition,
any drawing or text operation) makes `collect()` return that very error
and leaves the session untouched: no default is substituted and
collection never continues. -/
theorem c7_canvas_failure_fatal (h : Host) (s : BrowserFingerprinter)
    (doc : Document) (nav : Navigator) (p : ProbeData) (e : JsErr)
    (hprobe : probeStage h = .ok (doc, nav, p))
    (hcanvas : generate_canvas_fingerprint doc = .error e) :
    (s.collect h).1 = .error e ∧ (s.collect h).2 = s := by
  have hrec : collectRecord h = .error e := by
    simp [collectRecord, hprobe, hcanvas]
  unfold BrowserFingerprinter.collect
  rw [hrec]
  exact ⟨rfl, rfl⟩

/-- C7 witness: a host whose canvas grants no 2D context. -/
theorem c7_witness :
    ((BrowserFingerprinter.new).collect hostNoCtx2d).1 =
      .error "Failed to get 2d context" ∧
    ((BrowserFingerprinter.new).collect hostNoCtx2d).2 = BrowserFingerprinter.new :=
  c7_canvas_failure_fatal hostNoCtx2d BrowserFingerprinter.new docNoCtx2d
    navGood probeGoodData "Failed to get 2d context" rfl rfl

/-- C8: `get_timezone` returns the zone name resolved through the
locale-formatting chain when every step succeeds with a string, and the
sentinel `"Unknown"` otherwise; its return type is a plain string, so no
error ever propagates to the caller. -/
theorem c8_timezone_fallback (h : TzHost) :
    get_timezone h = (resolvedTimeZone h).getD "Unknown" := by
  obtain ⟨i, dfmt, dcall, ropt, rcall, tzfld⟩ := h
  rcases i with e | iv
  · rfl
  rcases dfmt with e | dtf
  · rfl
  rcases hdtf : dynIntoFunction dtf with e | f
  · simp [get_timezone, resolvedTimeZone, exceptToOption, hdtf]
  rcases dcall with e | cv
  · simp [get_timezone, resolvedTimeZone, exceptToOption, hdtf]
  rcases ropt with e | ro
  · simp [get_timezone, resolvedTimeZone, exceptToOption, hdtf]
  rcases hro : dynIntoFunction ro with e | f2
  · simp [get_timezone, resolvedTimeZone, exceptToOption, hdtf, hro]
  rcases rcall with e | rc
  · simp [get_timezone, resolvedTimeZone, exceptToOption, hdtf, hro]
  rcases tzfld with e | tzv
  · simp [get_timezone, resolvedTimeZone, exceptToOption, hdtf, hro]
  rcases hs : tzv.as_string with - | s
  · simp [get_timezone, resolvedTimeZone, exceptToOption, hdtf, hro, hs]
  · simp [get_timezone, resolvedTimeZone, exceptToOption, hdtf, hro, hs]

/-- C9: after every successful `collect()` the stored record's
`hardware_concurrency` is present; and there is a successful collection
whose `device_memory` and `do_not_track` are both absent, so of the
record's optional fields only those two can actually be absent. -/
theorem c9_optional_fields :
    (∀ h : Host, ((exceptToOption (collectRecord h)).all fun fp =>
      fp.hardware_concurrency.isSome) = true)
    ∧ ∃ h : Host, ((exceptToOption (collectRecord h)).any fun fp =>
        fp.device_memory.isNone && fp.do_not_track.isNone) = true := by
  constructor
  · intro h
    rcases hps : probeStage h with e | ⟨doc, nav, p⟩
    · simp [collectRecord, hps, exceptToOption]
    · have hhc := probeStage_hardware_concurrency h doc nav p hps
      rcases hcv : generate_canvas_fingerprint doc with e | cf
      · simp [collectRecord, hps, hcv, exceptToOption]
      · rcases hgl : get_webgl_info doc with e | ⟨gv, gr, gver, gsv, gexts⟩
        · simp [collectRecord, hps, hcv, hgl, exceptToOption]
        · simp [collectRecord, hps, hcv, hgl, exceptToOption, hhc]
  · exact ⟨hostGood, by decide⟩

/-- C10: in `get_languages`, when enumerating the host languages array
yields no string entries, an available single navigator language gives
exactly the one-element list holding it; the result is empty exactly when
the array yields nothing and the single language is also unavailable. -/
theorem c10_languages_fallback (nav : Navigator) :
    (∀ l, nav.languages.filterMap JsValue.as_string = [] →
      nav.language = some l → get_languages nav = [l])
    ∧ (get_languages nav = [] ↔
        (nav.languages.filterMap JsValue.as_string = [] ∧ nav.language = none)) := by
  constructor
  · intro l h1 h2
    simp [get_languages, h1, h2]
  · unfold get_languages
    rcases he : nav.languages.filterMap JsValue.as_string with - | ⟨a, rest⟩
    · rcases hl : nav.language with - | l <;> simp
    · simp

end BFP
